/-
Shallow embedding of the reaction-rate evaluation core of Cantera
(src/Cantera/src/base/ctml.h, whose second part is ReactionRate.cpp),
together with proofs of the behavioural properties of its rate classes.

Doubles are modelled as rationals extended with a NaN element, so that the
unset (NAN) coefficient states of the source are representable and IEEE
comparisons with NaN (always false) are captured.
-/
import Mathlib

set_option autoImplicit false

namespace Cantera

/-- Model of a C++ `double`: a rational value or NaN.  NaN marks the unset
coefficient state used throughout ReactionRate.cpp (`Arrhenius(NAN, NAN, NAN)`). -/
inductive Double where
  | nan : Double
  | val : ℚ → Double
  deriving DecidableEq, Repr, Inhabited

/-- IEEE `<` on the Double model: any comparison involving NaN is false. -/
def Double.blt : Double → Double → Bool
  | .val x, .val y => decide (x < y)
  | _, _ => false

/-- IEEE `<=` on the Double model: any comparison involving NaN is false. -/
def Double.ble : Double → Double → Bool
  | .val x, .val y => decide (x ≤ y)
  | _, _ => false

/-- Test for the NaN (unset) state, as `std::isnan` does in the source. -/
def Double.isNaN : Double → Bool
  | .nan => true
  | .val _ => false

/-- Multiplication with NaN propagation. -/
def Double.mul : Double → Double → Double
  | .val x, .val y => .val (x * y)
  | _, _ => .nan

/-- Division with NaN propagation (division by zero is not exercised here). -/
def Double.div : Double → Double → Double
  | .val x, .val y => .val (x / y)
  | _, _ => .nan

/-- Modelled from the spec: the universal gas constant in J/(kmol·K)
(`GasConstant` from ct_defs.h, which is not under src/); the spec's concrete
scenarios use the value 8314.462. -/
def GasConstant : ℚ := 8314.462

/-- Modelled from the spec: `Cantera::npos`, the out-of-range sentinel for
`size_t` indices (ct_defs.h is not under src/). -/
def npos : Nat := 18446744073709551615

/-- Modelled from the spec: a unit system attached to a parameter-tree node
(AnyMap/UnitSystem are not under src/).  Only the activation-energy conversion
factor to J/kmol matters for the rate classes: activation energies are
multiplied by it at ingest before the division by the gas constant. -/
structure UnitSystem where
  actEnergyFactor : ℚ
  deriving DecidableEq, Repr

/-- The default unit system (SI, factor 1). -/
def UnitSystem.si : UnitSystem := ⟨1⟩

/-- Modelled from the spec: a rate-unit context (`Units` is not under src/),
reduced to its conversion factor to SI; `Units(1.)` is `Units.one`. -/
structure Units where
  factor : ℚ
  deriving DecidableEq, Repr

/-- The dimensionless unit `Units(1.)`. -/
def Units.one : Units := ⟨1⟩

/-- Modelled from the spec: a value of the self-describing parameter tree
(AnyValue is not under src/): empty, boolean, number, or nested mapping with
its own unit system. -/
inductive AnyValue where
  | empty : AnyValue
  | bool : Bool → AnyValue
  | real : Double → AnyValue
  | map : UnitSystem → List (String × AnyValue) → AnyValue
  deriving Repr

/-- Modelled from the spec: a parameter-tree node (AnyMap is not under src/):
an ordered mapping from string keys to values carrying a unit system. -/
structure AnyMap where
  us : UnitSystem
  pairs : List (String × AnyValue)
  deriving Repr

/-- The empty parameter node. -/
def AnyMap.empty : AnyMap := ⟨UnitSystem.si, []⟩

/-- Look up the value stored under a key, if present. -/
def AnyMap.find? (m : AnyMap) (k : String) : Option AnyValue :=
  (m.pairs.find? (fun p => p.1 == k)).map (fun p => p.2)

/-- `AnyMap::hasKey`. -/
def AnyMap.hasKey (m : AnyMap) (k : String) : Bool :=
  (m.find? k).isSome

/-- `AnyMap::getBool(key, default)`: the stored boolean, or the default when
the key is absent. -/
def AnyMap.getBool (m : AnyMap) (k : String) (dflt : Bool) : Bool :=
  match m.find? k with
  | some (.bool b) => b
  | _ => dflt

/-- Element access `node[key]` / `node.at(key)`. -/
def AnyMap.get (m : AnyMap) (k : String) : AnyValue :=
  (m.find? k).getD AnyValue.empty

/-- `AnyMap::units`: the unit system attached to the node. -/
def AnyMap.units (m : AnyMap) : UnitSystem := m.us

/-- Replace-or-append assignment on the underlying pair list. -/
def setPairs : List (String × AnyValue) → String → AnyValue → List (String × AnyValue)
  | [], k, v => [(k, v)]
  | p :: ps, k, v => if p.1 = k then (k, v) :: ps else p :: setPairs ps k v

/-- Assignment `node[key] = value`. -/
def AnyMap.set (m : AnyMap) (k : String) (v : AnyValue) : AnyMap :=
  ⟨m.us, setPairs m.pairs k v⟩

/-- `AnyMap::empty()`: whether the node holds no key. -/
def AnyMap.isEmpty (m : AnyMap) : Bool := m.pairs.isEmpty

/-- `CanteraError(procedure, message)`, the error type thrown by the source. -/
structure CanteraError where
  procedure : String
  msg : String
  deriving DecidableEq, Repr

/-- Modelled from the spec: a MultiRate evaluator (MultiRate.h is not under
src/).  It stores a dense sequence of one variant's rates; `rate(index)` is
element access into that sequence.  The stored copies are themselves unlinked
rate objects, so only their kinetics-observable data `D` is kept. -/
structure MultiRate (D : Type) where
  rates : List D
  deriving DecidableEq, Repr

/-- Replace the element at an index by the image under `f`, leaving the list
unchanged when the index is out of range.  This is the effect of fetching the
evaluator's copy by reference and applying a setter to it in place. -/
def modifyNth {D : Type} (f : D → D) : List D → Nat → List D
  | [], _ => []
  | d :: ds, 0 => f d :: ds
  | d :: ds, n + 1 => d :: modifyNth f ds n

/-- `MultiRateBase::rate(index)`, as an optional lookup. -/
def MultiRate.rate? {D : Type} (ev : MultiRate D) (i : Nat) : Option D :=
  ev.rates.get? i

/-- Apply a setter to the evaluator's copy at an index (the in-place mutation
`evaluator->rate(index)` followed by the setter call). -/
def MultiRate.applyAt {D : Type} (ev : MultiRate D) (i : Nat) (f : D → D) : MultiRate D :=
  ⟨modifyNth f ev.rates i⟩

/-- State of `ReactionRateBase` (ReactionRate.h declarations are not under
src/; the member functions below are from ReactionRate.cpp): the recorded
input node and rate units, plus the optional link to a rate evaluator. -/
structure ReactionRateBase (Ev : Type) where
  input : AnyMap
  units : Units
  m_index : Nat
  m_evaluator : Option Ev
  deriving Repr

/-- `ReactionRateBase::setParameters`: records the node and the rate units. -/
def ReactionRateBase.setParameters {Ev : Type} (r : ReactionRateBase Ev)
    (node : AnyMap) (rate_units : Units) : ReactionRateBase Ev :=
  { r with units := rate_units, input := node }

/-- `ReactionRateBase::linkEvaluator(index, evaluator)`: sets the stored index
and evaluator pointer. -/
def ReactionRateBase.linkEvaluator {Ev : Type} (r : ReactionRateBase Ev)
    (index : Nat) (evaluator : Ev) : ReactionRateBase Ev :=
  { r with m_index := index, m_evaluator := some evaluator }

/-- `ReactionRateBase::releaseEvaluator`: resets the index to `npos` and
clears the evaluator pointer. -/
def ReactionRateBase.releaseEvaluator {Ev : Type} (r : ReactionRateBase Ev) :
    ReactionRateBase Ev :=
  { r with m_index := npos, m_evaluator := none }

/-- The message of the error thrown by `ReactionRateBase::index` on an
unlinked rate (the spelling follows the source verbatim). -/
def indexErrorMsg : String :=
  "Not applicable, as reaction rate is not linked to Kinetics object " ++
  "with assoicated rate evaluator"

/-- `ReactionRateBase::index()`: the stored index when an evaluator is linked,
otherwise a CanteraError. -/
def ReactionRateBase.index {Ev : Type} (r : ReactionRateBase Ev) :
    Except CanteraError Nat :=
  match r.m_evaluator with
  | some _ => .ok r.m_index
  | none => .error ⟨"ReactionRateBase::index", indexErrorMsg⟩

/-- The `Arrhenius` coefficient triple of RxnRates.h: pre-exponential factor
`m_A`, temperature exponent `m_b` and reduced activation energy `m_E` (E/R);
all three are NaN in the unset state. -/
structure Arrhenius where
  m_A : Double
  m_b : Double
  m_E : Double
  deriving DecidableEq, Repr

/-- `Arrhenius::preExponentialFactor`. -/
def Arrhenius.preExponentialFactor (a : Arrhenius) : Double := a.m_A

/-- `Arrhenius::temperatureExponent`. -/
def Arrhenius.temperatureExponent (a : Arrhenius) : Double := a.m_b

/-- Modelled from the spec: `Arrhenius::setParameters` (RxnRates.cpp is not
under src/).  An empty value resets the coefficients to the unset (NaN)
state; otherwise the `{A, b, Ea}` entries are read, `A` converted by the rate
units and `Ea` converted by the node's activation-energy unit and divided by
the gas constant; a malformed mapping is an invalid-parameter error. -/
def Arrhenius.readParameters (rate : AnyValue) (us : UnitSystem)
    (rate_units : Units) : Except CanteraError Arrhenius :=
  match rate with
  | .empty => .ok ⟨.nan, .nan, .nan⟩
  | .map mus ps =>
    let m : AnyMap := ⟨mus, ps⟩
    match m.find? "A", m.find? "b", m.find? "Ea" with
    | some (.real A), some (.real b), some (.real Ea) =>
      .ok ⟨A.mul (.val rate_units.factor), b,
           (Ea.mul (.val us.actEnergyFactor)).div (.val GasConstant)⟩
    | _, _, _ => .error ⟨"Arrhenius::setParameters",
        "rate-constant is missing an A, b or Ea entry"⟩
  | _ => .error ⟨"Arrhenius::setParameters", "rate-constant must be a mapping"⟩

/-- Modelled from the spec: `Arrhenius::getParameters` (RxnRates.cpp is not
under src/).  When the coefficients are unset (NaN pre-exponential factor)
the node is left untouched, so it stays empty; otherwise the `A`, `b` and
`Ea` entries are written, `A` back-converted to the rate units and `Ea`
multiplied back by the gas constant. -/
def Arrhenius.writeParameters (a : Arrhenius) (node : AnyMap)
    (rate_units : Units) : AnyMap :=
  if a.m_A.isNaN then
    node
  else
    ((node.set "A" (.real (a.m_A.div (.val rate_units.factor)))).set
      "b" (.real a.m_b)).set "Ea" (.real (a.m_E.mul (.val GasConstant)))

/-- The kinetics-observable data of an `ArrheniusRate`: the Arrhenius triple
plus the `negative-A` permission flag.  This is the state kept for the
evaluator's copies, which are unlinked. -/
structure ArrheniusData extends Arrhenius where
  allow_negative_pre_exponential_factor : Bool
  deriving DecidableEq, Repr

/-- `ArrheniusRate::setPreExponentialFactor` applied to an unlinked evaluator
copy: the local assignment `m_A = A`. -/
def ArrheniusData.setPreExponentialFactor (d : ArrheniusData) (A : ℚ) : ArrheniusData :=
  { d with m_A := .val A }

/-- `ArrheniusRate::setTemperatureExponent` applied to an unlinked evaluator
copy: the local assignment `m_b = b`. -/
def ArrheniusData.setTemperatureExponent (d : ArrheniusData) (b : ℚ) : ArrheniusData :=
  { d with m_b := .val b }

/-- `ArrheniusRate::setActivationEnergy` applied to an unlinked evaluator
copy: the local assignment `m_E = E / GasConstant`. -/
def ArrheniusData.setActivationEnergy (d : ArrheniusData) (E : ℚ) : ArrheniusData :=
  { d with m_E := .val (E / GasConstant) }

/-- `ArrheniusRate` from ReactionRate.cpp: a `ReactionRateBase` whose
evaluator batches `ArrheniusData`, together with the Arrhenius data. -/
structure ArrheniusRate extends ReactionRateBase (MultiRate ArrheniusData), ArrheniusData
  deriving Repr

/-- `ArrheniusRate::ArrheniusRate()`: delegates to `Arrhenius(NAN, NAN, NAN)`
and clears the `negative-A` flag; the rate starts unlinked. -/
def ArrheniusRate.mkDefault : ArrheniusRate :=
  { input := AnyMap.empty, units := Units.one, m_index := npos, m_evaluator := none,
    m_A := .nan, m_b := .nan, m_E := .nan,
    allow_negative_pre_exponential_factor := false }

/-- `ArrheniusRate::ArrheniusRate(A, b, E)`: delegates to
`Arrhenius(A, b, E / GasConstant)` and clears the `negative-A` flag. -/
def ArrheniusRate.ofCoeffs (A b E : ℚ) : ArrheniusRate :=
  { ArrheniusRate.mkDefault with
    m_A := .val A, m_b := .val b, m_E := .val (E / GasConstant) }

/-- The evaluator's copy of a rate, at the stored index: `rate(m_index)` of
the linked evaluator, when present. -/
def ArrheniusRate.evaluatorCopy (r : ArrheniusRate) : Option ArrheniusData :=
  r.m_evaluator.bind fun ev => ev.rate? r.m_index

/-- `ArrheniusRate::setPreExponentialFactor(A)`: sets `m_A = A` and, when an
evaluator is linked, applies the same setter to the evaluator's rate at the
stored index. -/
def ArrheniusRate.setPreExponentialFactor (r : ArrheniusRate) (A : ℚ) : ArrheniusRate :=
  match r.m_evaluator with
  | some ev => { r with
      m_A := .val A
      m_evaluator := some (ev.applyAt r.m_index (fun d => d.setPreExponentialFactor A)) }
  | none => { r with m_A := .val A }

/-- `ArrheniusRate::setTemperatureExponent(b)`: sets `m_b = b` and forwards to
the linked evaluator's copy. -/
def ArrheniusRate.setTemperatureExponent (r : ArrheniusRate) (b : ℚ) : ArrheniusRate :=
  match r.m_evaluator with
  | some ev => { r with
      m_b := .val b
      m_evaluator := some (ev.applyAt r.m_index (fun d => d.setTemperatureExponent b)) }
  | none => { r with m_b := .val b }

/-- `ArrheniusRate::setActivationEnergy(E)`: sets `m_E = E / GasConstant` and
forwards to the linked evaluator's copy. -/
def ArrheniusRate.setActivationEnergy (r : ArrheniusRate) (E : ℚ) : ArrheniusRate :=
  match r.m_evaluator with
  | some ev => { r with
      m_E := .val (E / GasConstant)
      m_evaluator := some (ev.applyAt r.m_index (fun d => d.setActivationEnergy E)) }
  | none => { r with m_E := .val (E / GasConstant) }

/-- `ArrheniusRate::setParameters(node, rate_units)`: records node and units,
reads the `negative-A` flag with default false, and configures the Arrhenius
coefficients from the `rate-constant` key, or resets them to the unset state
when that key is absent (which is not an error). -/
def ArrheniusRate.setParameters (r : ArrheniusRate) (node : AnyMap)
    (rate_units : Units) : Except CanteraError ArrheniusRate :=
  let rb := r.toReactionRateBase.setParameters node rate_units
  let allowNeg := node.getBool "negative-A" false
  let rateVal := if !(node.hasKey "rate-constant") then AnyValue.empty
                 else node.get "rate-constant"
  match Arrhenius.readParameters rateVal node.units rate_units with
  | .ok a => .ok
      { toReactionRateBase := rb
        toArrheniusData :=
          { toArrhenius := a, allow_negative_pre_exponential_factor := allowNeg } }
  | .error e => .error e

/-- `ArrheniusRate::getParameters(rateNode, rate_units)`: writes
`negative-A: true` when the flag is set, then writes the Arrhenius node under
`rate-constant` when the Arrhenius object is configured (its node comes back
non-empty). -/
def ArrheniusRate.getParameters (r : ArrheniusRate) (rateNode : AnyMap)
    (rate_units : Units) : AnyMap :=
  let rateNode := if r.allow_negative_pre_exponential_factor then
      rateNode.set "negative-A" (.bool true)
    else rateNode
  let node := r.toArrheniusData.toArrhenius.writeParameters AnyMap.empty rate_units
  if !node.isEmpty then rateNode.set "rate-constant" (.map node.us node.pairs)
  else rateNode

/-- `ArrheniusRate::validate(equation)`: throws when a negative
pre-exponential factor is found while `negative-A` is not allowed; otherwise
leaves the rate unchanged. -/
def ArrheniusRate.validate (r : ArrheniusRate) (equation : String) :
    Except CanteraError ArrheniusRate :=
  if !r.allow_negative_pre_exponential_factor &&
      Double.blt r.toArrheniusData.toArrhenius.preExponentialFactor (.val 0) then
    .error ⟨"ArrheniusRate::validate",
      "Undeclared negative pre-exponential factor found in reaction \x27" ++
        equation ++ "\x27"⟩
  else
    .ok r

/-- Insert a (pressure, Arrhenius) entry in front of the first entry with a
larger pressure, keeping the table non-decreasing in pressure. -/
def insertByPressure (p : ℚ × Arrhenius) :
    List (ℚ × Arrhenius) → List (ℚ × Arrhenius)
  | [] => [p]
  | q :: qs => if p.1 ≤ q.1 then p :: q :: qs else q :: insertByPressure p qs

/-- Sort a pressure table by non-decreasing pressure (insertion sort). -/
def sortByPressure : List (ℚ × Arrhenius) → List (ℚ × Arrhenius)
  | [] => []
  | p :: ps => insertByPressure p (sortByPressure ps)

/-- The kinetics-observable data of a `PlogRate`: the stored pressure table of
the `Plog` base class (RxnRates.h). -/
structure PlogData where
  rates_ : List (ℚ × Arrhenius)
  deriving DecidableEq, Repr

/-- Modelled from the spec: `Plog::setRates` (RxnRates.cpp is not under src/)
replaces the stored table with the given (pressure, Arrhenius) pairs, stored
non-decreasing in pressure. -/
def PlogData.setRates (d : PlogData) (rates : List (ℚ × Arrhenius)) : PlogData :=
  { d with rates_ := sortByPressure rates }

/-- `PlogRate` from ReactionRate.cpp: a `ReactionRateBase` whose evaluator
batches `PlogData`, together with the Plog data. -/
structure PlogRate extends ReactionRateBase (MultiRate PlogData), PlogData
  deriving Repr

/-- The evaluator's copy of a Plog rate at the stored index. -/
def PlogRate.evaluatorCopy (r : PlogRate) : Option PlogData :=
  r.m_evaluator.bind fun ev => ev.rate? r.m_index

/-- `PlogRate::setRates(rates)`: calls `Plog::setRates` locally and, when an
evaluator is linked, applies the same setter to the evaluator's rate at the
stored index. -/
def PlogRate.setRates (r : PlogRate) (rates : List (ℚ × Arrhenius)) : PlogRate :=
  match r.m_evaluator with
  | some ev => { r with
      toPlogData := r.toPlogData.setRates rates
      m_evaluator := some (ev.applyAt r.m_index (fun d => d.setRates rates)) }
  | none => { r with toPlogData := r.toPlogData.setRates rates }

/-- The kinetics-observable data of a `ChebyshevRate3`: the domain bounds and
coefficient matrix of the `Chebyshev` base class (RxnRates.h). -/
structure ChebyshevData where
  Tmin : ℚ
  Tmax : ℚ
  Pmin : ℚ
  Pmax : ℚ
  m_coeffs : List (List ℚ)
  deriving DecidableEq, Repr

/-- Modelled from the spec: `Chebyshev::setCoeffs` (RxnRates.cpp is not under
src/) replaces the stored coefficient matrix (the derived nT/nP extents and
workspace are functions of the matrix and are not tracked separately). -/
def ChebyshevData.setCoeffs (d : ChebyshevData) (coeffs : List (List ℚ)) :
    ChebyshevData :=
  { d with m_coeffs := coeffs }

/-- `ChebyshevRate3` from ReactionRate.cpp: a `ReactionRateBase` whose
evaluator batches `ChebyshevData`, together with the Chebyshev data. -/
structure ChebyshevRate3 extends ReactionRateBase (MultiRate ChebyshevData), ChebyshevData
  deriving Repr

/-- The evaluator's copy of a Chebyshev rate at the stored index. -/
def ChebyshevRate3.evaluatorCopy (r : ChebyshevRate3) : Option ChebyshevData :=
  r.m_evaluator.bind fun ev => ev.rate? r.m_index

/-- `ChebyshevRate3::setCoeffs(coeffs)`: calls `Chebyshev::setCoeffs` locally
and, when an evaluator is linked, applies the same setter to the evaluator's
rate at the stored index. -/
def ChebyshevRate3.setCoeffs (r : ChebyshevRate3) (coeffs : List (List ℚ)) :
    ChebyshevRate3 :=
  match r.m_evaluator with
  | some ev => { r with
      toChebyshevData := r.toChebyshevData.setCoeffs coeffs
      m_evaluator := some (ev.applyAt r.m_index (fun d => d.setCoeffs coeffs)) }
  | none => { r with toChebyshevData := r.toChebyshevData.setCoeffs coeffs }

/-- `ChebyshevRate3::validate(equation)`: the body is empty, so validation
never fails and the rate is left unchanged. -/
def ChebyshevRate3.validate (r : ChebyshevRate3) (equation : String) :
    Except CanteraError ChebyshevRate3 :=
  .ok r

/-- Modelled from the spec: the shared-data bundle for custom rates
(`CustomFunc1Data`, ReactionRate.h is not under src/): the per-evaluation
temperature, of which `eval` reads `m_temperature`. -/
structure CustomFunc1Data where
  m_temperature : ℚ

/-- The kinetics-observable data of a `CustomFunc1Rate`: the optional pointer
to the rate function (`Func1`, modelled as a function on temperature). -/
structure CustomFunc1RateData where
  m_ratefunc : Option (ℚ → ℚ)

/-- `CustomFunc1Rate::eval(shared_data, concm)` on the observable data: the
stored function applied to the shared temperature, or NaN when no function is
set; it never throws. -/
def CustomFunc1RateData.eval (d : CustomFunc1RateData)
    (shared_data : CustomFunc1Data) (concm : ℚ) : Double :=
  match d.m_ratefunc with
  | some f => .val (f shared_data.m_temperature)
  | none => .nan

/-- `CustomFunc1Rate` from ReactionRate.cpp: a `ReactionRateBase` whose
evaluator batches `CustomFunc1RateData`, together with the function data. -/
structure CustomFunc1Rate extends
    ReactionRateBase (MultiRate CustomFunc1RateData), CustomFunc1RateData

/-- `CustomFunc1Rate::CustomFunc1Rate()`: the rate function starts null. -/
def CustomFunc1Rate.mkDefault : CustomFunc1Rate :=
  { input := AnyMap.empty, units := Units.one, m_index := npos,
    m_evaluator := none, m_ratefunc := none }

/-- The evaluator's copy of a custom rate at the stored index. -/
def CustomFunc1Rate.evaluatorCopy (r : CustomFunc1Rate) :
    Option CustomFunc1RateData :=
  r.m_evaluator.bind fun ev => ev.rate? r.m_index

/-- `CustomFunc1Rate::setRateFunction(f)`: assigns `m_ratefunc = f`.  Unlike
the other setters in ReactionRate.cpp, the body contains no forwarding to a
linked evaluator. -/
def CustomFunc1Rate.setRateFunction (r : CustomFunc1Rate)
    (f : Option (ℚ → ℚ)) : CustomFunc1Rate :=
  { r with m_ratefunc := f }

/-- `CustomFunc1Rate::eval(shared_data, concm)`: dispatches to the observable
data. -/
def CustomFunc1Rate.eval (r : CustomFunc1Rate) (shared_data : CustomFunc1Data)
    (concm : ℚ) : Double :=
  r.toCustomFunc1RateData.eval shared_data concm

theorem modifyNth_get? {D : Type} (f : D → D) (l : List D) (n : Nat) :
    (modifyNth f l n).get? n = (l.get? n).map f := by
  induction l generalizing n with
  | nil => simp [modifyNth]
  | cons d ds ih =>
    cases n with
    | zero => simp [modifyNth]
    | succ n => simpa [modifyNth] using ih n

theorem rate?_applyAt {D : Type} (ev : MultiRate D) (i : Nat) (f : D → D) :
    (ev.applyAt i f).rate? i = (ev.rate? i).map f :=
  modifyNth_get? f ev.rates i

/-- C2: `index()` on a rate with no linked evaluator throws the invalid-state
CanteraError of `ReactionRateBase::index`; after `linkEvaluator(idx, ev)` it
returns `idx`, and after a subsequent `releaseEvaluator` it throws again. -/
theorem index_spec {Ev : Type} (r : ReactionRateBase Ev) (idx : Nat) (ev : Ev) :
    (r.m_evaluator = none →
      r.index = .error ⟨"ReactionRateBase::index", indexErrorMsg⟩) ∧
    (r.linkEvaluator idx ev).index = .ok idx ∧
    (r.linkEvaluator idx ev).releaseEvaluator.index =
      .error ⟨"ReactionRateBase::index", indexErrorMsg⟩ := by
  refine ⟨fun h => ?_, ?_, ?_⟩
  · simp [ReactionRateBase.index, h]
  · simp [ReactionRateBase.index, ReactionRateBase.linkEvaluator]
  · simp [ReactionRateBase.index, ReactionRateBase.linkEvaluator,
      ReactionRateBase.releaseEvaluator]

theorem index_spec_witness :
    ArrheniusRate.mkDefault.toReactionRateBase.m_evaluator = none ∧
    ArrheniusRate.mkDefault.toReactionRateBase.index =
      .error ⟨"ReactionRateBase::index", indexErrorMsg⟩ ∧
    (ArrheniusRate.mkDefault.toReactionRateBase.linkEvaluator 2
      (⟨[]⟩ : MultiRate ArrheniusData)).index = .ok 2 :=
  ⟨rfl, (index_spec ArrheniusRate.mkDefault.toReactionRateBase 2
      (⟨[]⟩ : MultiRate ArrheniusData)).1 rfl,
    (index_spec ArrheniusRate.mkDefault.toReactionRateBase 2
      (⟨[]⟩ : MultiRate ArrheniusData)).2.1⟩

/-- C5: both the three-argument constructor and `setActivationEnergy` store
the activation energy divided by the universal gas constant, so the stored
`m_E` is E/R. -/
theorem activation_energy_over_R (A b E : ℚ) (r : ArrheniusRate) :
    (ArrheniusRate.ofCoeffs A b E).m_E = .val (E / GasConstant) ∧
    (r.setActivationEnergy E).m_E = .val (E / GasConstant) := by
  refine ⟨rfl, ?_⟩
  rcases hev : r.m_evaluator with _ | ev <;>
    simp [ArrheniusRate.setActivationEnergy, hev]

/-- C8: `CustomFunc1Rate::eval` returns the stored function applied to the
shared-data temperature when a rate function is set, and NaN when none is
set; its result type carries no error, so it never throws. -/
theorem custom_eval_spec (r : CustomFunc1Rate) (shared_data : CustomFunc1Data)
    (concm : ℚ) (f : ℚ → ℚ) :
    (r.m_ratefunc = some f →
      r.eval shared_data concm = .val (f shared_data.m_temperature)) ∧
    (r.m_ratefunc = none → r.eval shared_data concm = .nan) := by
  constructor <;> intro h <;>
    simp [CustomFunc1Rate.eval, CustomFunc1RateData.eval, h]

theorem custom_eval_spec_witness :
    (CustomFunc1Rate.mkDefault.setRateFunction (some id)).m_ratefunc =
      some (id : ℚ → ℚ) ∧
    (CustomFunc1Rate.mkDefault.setRateFunction (some id)).eval ⟨1000⟩ 5 =
      .val 1000 ∧
    CustomFunc1Rate.mkDefault.m_ratefunc = none ∧
    CustomFunc1Rate.mkDefault.eval ⟨1000⟩ 5 = .nan :=
  ⟨rfl,
    (custom_eval_spec (CustomFunc1Rate.mkDefault.setRateFunction (some id))
      ⟨1000⟩ 5 id).1 rfl,
    rfl,
    (custom_eval_spec CustomFunc1Rate.mkDefault ⟨1000⟩ 5 id).2 rfl⟩

/-- C9: `ChebyshevRate3::validate` has an empty body: for every rate state and
every equation string it succeeds and returns the state unchanged. -/
theorem chebyshev_validate_noop (r : ChebyshevRate3) (equation : String) :
    r.validate equation = .ok r := rfl

/-- C10: the result of `CustomFunc1Rate::eval` does not depend on the `concm`
argument: the body only reads the stored function and the shared-data
temperature. -/
theorem custom_eval_concm_independent (r : CustomFunc1Rate)
    (shared_data : CustomFunc1Data) (concm1 concm2 : ℚ) :
    r.eval shared_data concm1 = r.eval shared_data concm2 := rfl

/-- C1: each mutator of `ArrheniusRate`, `PlogRate` and `ChebyshevRate3`
updates the local state and applies the identical setter to the evaluator's
rate at the stored index, so a linked rate that is observably equal to its
evaluator copy remains so after the call; when unlinked, only the local
coefficient changes. -/
theorem linked_setters_propagate (r : ArrheniusRate) (p : PlogRate)
    (c : ChebyshevRate3) (A b E : ℚ) (rts : List (ℚ × Arrhenius))
    (cfs : List (List ℚ)) :
    ((r.setPreExponentialFactor A).m_A = .val A ∧
      (r.evaluatorCopy = some r.toArrheniusData →
        (r.setPreExponentialFactor A).evaluatorCopy =
          some (r.setPreExponentialFactor A).toArrheniusData) ∧
      (r.m_evaluator = none →
        r.setPreExponentialFactor A = { r with m_A := .val A })) ∧
    ((r.setTemperatureExponent b).m_b = .val b ∧
      (r.evaluatorCopy = some r.toArrheniusData →
        (r.setTemperatureExponent b).evaluatorCopy =
          some (r.setTemperatureExponent b).toArrheniusData) ∧
      (r.m_evaluator = none →
        r.setTemperatureExponent b = { r with m_b := .val b })) ∧
    ((r.setActivationEnergy E).m_E = .val (E / GasConstant) ∧
      (r.evaluatorCopy = some r.toArrheniusData →
        (r.setActivationEnergy E).evaluatorCopy =
          some (r.setActivationEnergy E).toArrheniusData) ∧
      (r.m_evaluator = none →
        r.setActivationEnergy E = { r with m_E := .val (E / GasConstant) })) ∧
    ((p.setRates rts).rates_ = sortByPressure rts ∧
      (p.evaluatorCopy = some p.toPlogData →
        (p.setRates rts).evaluatorCopy = some (p.setRates rts).toPlogData) ∧
      (p.m_evaluator = none →
        p.setRates rts = { p with toPlogData := p.toPlogData.setRates rts })) ∧
    ((c.setCoeffs cfs).m_coeffs = cfs ∧
      (c.evaluatorCopy = some c.toChebyshevData →
        (c.setCoeffs cfs).evaluatorCopy = some (c.setCoeffs cfs).toChebyshevData) ∧
      (c.m_evaluator = none →
        c.setCoeffs cfs = { c with toChebyshevData := c.toChebyshevData.setCoeffs cfs })) := by
  refine ⟨⟨?_, fun h => ?_, fun h => ?_⟩, ⟨?_, fun h => ?_, fun h => ?_⟩,
    ⟨?_, fun h => ?_, fun h => ?_⟩, ⟨?_, fun h => ?_, fun h => ?_⟩,
    ⟨?_, fun h => ?_, fun h => ?_⟩⟩
  · rcases hev : r.m_evaluator with _ | ev <;>
      simp [ArrheniusRate.setPreExponentialFactor, hev]
  · rcases hev : r.m_evaluator with _ | ev
    · simp [ArrheniusRate.evaluatorCopy, hev] at h
    · simp only [ArrheniusRate.evaluatorCopy, hev, Option.some_bind] at h
      simp [ArrheniusRate.setPreExponentialFactor, ArrheniusRate.evaluatorCopy, hev,
        rate?_applyAt, h, ArrheniusData.setPreExponentialFactor]
  · simp [ArrheniusRate.setPreExponentialFactor, h]
  · rcases hev : r.m_evaluator with _ | ev <;>
      simp [ArrheniusRate.setTemperatureExponent, hev]
  · rcases hev : r.m_evaluator with _ | ev
    · simp [ArrheniusRate.evaluatorCopy, hev] at h
    · simp only [ArrheniusRate.evaluatorCopy, hev, Option.some_bind] at h
      simp [ArrheniusRate.setTemperatureExponent, ArrheniusRate.evaluatorCopy, hev,
        rate?_applyAt, h, ArrheniusData.setTemperatureExponent]
  · simp [ArrheniusRate.setTemperatureExponent, h]
  · rcases hev : r.m_evaluator with _ | ev <;>
      simp [ArrheniusRate.setActivationEnergy, hev]
  · rcases hev : r.m_evaluator with _ | ev
    · simp [ArrheniusRate.evaluatorCopy, hev] at h
    · simp only [ArrheniusRate.evaluatorCopy, hev, Option.some_bind] at h
      simp [ArrheniusRate.setActivationEnergy, ArrheniusRate.evaluatorCopy, hev,
        rate?_applyAt, h, ArrheniusData.setActivationEnergy]
  · simp [ArrheniusRate.setActivationEnergy, h]
  · rcases hev : p.m_evaluator with _ | ev <;>
      simp [PlogRate.setRates, hev, PlogData.setRates]
  · rcases hev : p.m_evaluator with _ | ev
    · simp [PlogRate.evaluatorCopy, hev] at h
    · simp only [PlogRate.evaluatorCopy, hev, Option.some_bind] at h
      simp [PlogRate.setRates, PlogRate.evaluatorCopy, hev,
        rate?_applyAt, h, PlogData.setRates]
  · simp [PlogRate.setRates, h]
  · rcases hev : c.m_evaluator with _ | ev <;>
      simp [ChebyshevRate3.setCoeffs, hev, ChebyshevData.setCoeffs]
  · rcases hev : c.m_evaluator with _ | ev
    · simp [ChebyshevRate3.evaluatorCopy, hev] at h
    · simp only [ChebyshevRate3.evaluatorCopy, hev, Option.some_bind] at h
      simp [ChebyshevRate3.setCoeffs, ChebyshevRate3.evaluatorCopy, hev,
        rate?_applyAt, h, ChebyshevData.setCoeffs]
  · simp [ChebyshevRate3.setCoeffs, h]

/-- A linked Arrhenius rate whose evaluator copy is equal to it. -/
def wArr : ArrheniusRate :=
  { input := AnyMap.empty, units := Units.one, m_index := 0,
    m_evaluator := some ⟨[⟨⟨.val 2, .val 0, .val 5⟩, false⟩]⟩,
    m_A := .val 2, m_b := .val 0, m_E := .val 5,
    allow_negative_pre_exponential_factor := false }

/-- A linked Plog rate whose evaluator copy is equal to it. -/
def wPlog : PlogRate :=
  { input := AnyMap.empty, units := Units.one, m_index := 0,
    m_evaluator := some ⟨[⟨[]⟩]⟩, rates_ := [] }

/-- A linked Chebyshev rate whose evaluator copy is equal to it. -/
def wCheb : ChebyshevRate3 :=
  { input := AnyMap.empty, units := Units.one, m_index := 0,
    m_evaluator := some ⟨[⟨300, 2000, 1, 10, []⟩]⟩,
    Tmin := 300, Tmax := 2000, Pmin := 1, Pmax := 10, m_coeffs := [] }

/-- The Plog fixture with the evaluator link released. -/
def wPlog0 : PlogRate := { wPlog with m_index := npos, m_evaluator := none }

/-- The Chebyshev fixture with the evaluator link released. -/
def wCheb0 : ChebyshevRate3 := { wCheb with m_index := npos, m_evaluator := none }

theorem linked_setters_propagate_witness :
    wArr.evaluatorCopy = some wArr.toArrheniusData ∧
    (wArr.setPreExponentialFactor 7).evaluatorCopy =
      some (wArr.setPreExponentialFactor 7).toArrheniusData ∧
    (wArr.setTemperatureExponent 3).evaluatorCopy =
      some (wArr.setTemperatureExponent 3).toArrheniusData ∧
    (wArr.setActivationEnergy 9).evaluatorCopy =
      some (wArr.setActivationEnergy 9).toArrheniusData ∧
    (wPlog.setRates [(1, ⟨.val 1, .val 0, .val 0⟩)]).evaluatorCopy =
      some (wPlog.setRates [(1, ⟨.val 1, .val 0, .val 0⟩)]).toPlogData ∧
    (wCheb.setCoeffs [[1]]).evaluatorCopy =
      some (wCheb.setCoeffs [[1]]).toChebyshevData ∧
    ArrheniusRate.mkDefault.m_evaluator = none ∧
    ArrheniusRate.mkDefault.setPreExponentialFactor 7 =
      { ArrheniusRate.mkDefault with m_A := .val 7 } ∧
    wPlog0.setRates [] = { wPlog0 with toPlogData := wPlog0.toPlogData.setRates [] } ∧
    wCheb0.setCoeffs [] =
      { wCheb0 with toChebyshevData := wCheb0.toChebyshevData.setCoeffs [] } :=
  ⟨rfl,
    (linked_setters_propagate wArr wPlog wCheb 7 3 9
      [(1, ⟨.val 1, .val 0, .val 0⟩)] [[1]]).1.2.1 rfl,
    (linked_setters_propagate wArr wPlog wCheb 7 3 9
      [(1, ⟨.val 1, .val 0, .val 0⟩)] [[1]]).2.1.2.1 rfl,
    (linked_setters_propagate wArr wPlog wCheb 7 3 9
      [(1, ⟨.val 1, .val 0, .val 0⟩)] [[1]]).2.2.1.2.1 rfl,
    (linked_setters_propagate wArr wPlog wCheb 7 3 9
      [(1, ⟨.val 1, .val 0, .val 0⟩)] [[1]]).2.2.2.1.2.1 rfl,
    (linked_setters_propagate wArr wPlog wCheb 7 3 9
      [(1, ⟨.val 1, .val 0, .val 0⟩)] [[1]]).2.2.2.2.2.1 rfl,
    rfl,
    (linked_setters_propagate ArrheniusRate.mkDefault wPlog0 wCheb0 7 3 9 [] []).1.2.2 rfl,
    (linked_setters_propagate ArrheniusRate.mkDefault wPlog0 wCheb0 7 3 9 [] []).2.2.2.1.2.2 rfl,
    (linked_setters_propagate ArrheniusRate.mkDefault wPlog0 wCheb0 7 3 9 [] []).2.2.2.2.2.2 rfl⟩

/-- C3 counterexample: the default-constructed rate has `negative-A`
disallowed and a NaN (unset) pre-exponential factor.  `validate` succeeds,
because the IEEE comparison NaN < 0 is false, yet A >= 0 also fails, refuting
the claim that `allow_negative_A = false` implies A >= 0 after a successful
validate. -/
theorem validate_nonneg_claim_cex :
    ArrheniusRate.mkDefault.validate "O + H2 <=> H + OH" =
      .ok ArrheniusRate.mkDefault ∧
    ArrheniusRate.mkDefault.allow_negative_pre_exponential_factor = false ∧
    Double.ble (.val 0) ArrheniusRate.mkDefault.m_A = false :=
  ⟨rfl, rfl, rfl⟩

/-- C3 (amended): `validate` raises the invalid-parameter error, whose
message embeds the equation string, exactly when the pre-exponential factor
is negative under IEEE comparison (a NaN factor is not negative) and
`negative-A` is disallowed; otherwise it returns the state unchanged, so
after a successful validate with `negative-A` disallowed the factor is not
negative (it is nonnegative or NaN/unset). -/
theorem arrhenius_validate_spec (r : ArrheniusRate) (equation : String) :
    (r.validate equation =
        .error ⟨"ArrheniusRate::validate",
          "Undeclared negative pre-exponential factor found in reaction \x27" ++
            equation ++ "\x27"⟩ ↔
      (r.allow_negative_pre_exponential_factor = false ∧
        Double.blt r.m_A (.val 0) = true)) ∧
    (Double.blt r.m_A (.val 0) = false → r.validate equation = .ok r) ∧
    (r.allow_negative_pre_exponential_factor = true →
      r.validate equation = .ok r) ∧
    (r.allow_negative_pre_exponential_factor = false →
      r.validate equation = .ok r → Double.blt r.m_A (.val 0) = false) := by
  cases hf : r.allow_negative_pre_exponential_factor <;>
  cases hA : Double.blt r.m_A (.val 0) <;>
    simp [ArrheniusRate.validate, Arrhenius.preExponentialFactor, hf, hA]

theorem arrhenius_validate_spec_witness :
    Double.blt ArrheniusRate.mkDefault.m_A (.val 0) = false ∧
    ArrheniusRate.mkDefault.validate "H + O2 <=> O + OH" =
      .ok ArrheniusRate.mkDefault ∧
    (ArrheniusRate.ofCoeffs (-1) 0 0).allow_negative_pre_exponential_factor
      = false ∧
    Double.blt (ArrheniusRate.ofCoeffs (-1) 0 0).m_A (.val 0) = true ∧
    (ArrheniusRate.ofCoeffs (-1) 0 0).validate "H + O2 <=> O + OH" =
      .error ⟨"ArrheniusRate::validate",
        "Undeclared negative pre-exponential factor found in reaction " ++
          "\x27H + O2 <=> O + OH\x27"⟩ :=
  ⟨rfl,
    (arrhenius_validate_spec ArrheniusRate.mkDefault "H + O2 <=> O + OH").2.1 rfl,
    rfl,
    by decide,
    (arrhenius_validate_spec (ArrheniusRate.ofCoeffs (-1) 0 0)
      "H + O2 <=> O + OH").1.mpr ⟨rfl, by decide⟩⟩

/-- A linked custom rate whose evaluator copy has no rate function, equal to
the local state (both unset). -/
def wCustom : CustomFunc1Rate :=
  { input := AnyMap.empty, units := Units.one, m_index := 0,
    m_evaluator := some ⟨[⟨none⟩]⟩, m_ratefunc := none }

/-- C4 counterexample: starting from a linked custom rate that is observably
equal to its evaluator copy (both unset), `setRateFunction` installs the
identity function locally, but the evaluator's copy still evaluates to NaN
while the rate evaluates to the temperature: the change is not forwarded and
the two no longer evaluate equally. -/
theorem setRateFunction_propagation_cex :
    ((wCustom.setRateFunction (some fun T => T)).evaluatorCopy.map
        (fun d => d.eval ⟨300⟩ 0)) = some Double.nan ∧
    (wCustom.setRateFunction (some fun T => T)).eval ⟨300⟩ 0 = .val 300 ∧
    Double.nan ≠ Double.val 300 :=
  ⟨rfl, rfl, by decide⟩

/-- C4 (amended): `setRateFunction` updates only the rate's local function
pointer; the link state and the evaluator's copy at the stored index are left
unchanged, so the change is not forwarded to a linked evaluator. -/
theorem setRateFunction_local_only (r : CustomFunc1Rate) (f : Option (ℚ → ℚ)) :
    (r.setRateFunction f).m_ratefunc = f ∧
    (r.setRateFunction f).toReactionRateBase = r.toReactionRateBase ∧
    (r.setRateFunction f).evaluatorCopy = r.evaluatorCopy :=
  ⟨rfl, rfl, rfl⟩

/-- C6: `setParameters` on a node without a `rate-constant` key does not
fail: it records the node and the rate units, reads the optional `negative-A`
key (default false), resets the Arrhenius coefficients to the unset NaN
state, and leaves the link state unchanged. -/
theorem setParameters_missing_rate_constant (r : ArrheniusRate) (node : AnyMap)
    (rate_units : Units) (h : node.hasKey "rate-constant" = false) :
    r.setParameters node rate_units =
      .ok ⟨⟨node, rate_units, r.m_index, r.m_evaluator⟩,
        ⟨⟨.nan, .nan, .nan⟩, node.getBool "negative-A" false⟩⟩ := by
  simp [ArrheniusRate.setParameters, ReactionRateBase.setParameters, h,
    Arrhenius.readParameters]

theorem setParameters_missing_rate_constant_witness :
    (⟨UnitSystem.si, [("negative-A", AnyValue.bool true)]⟩ : AnyMap).hasKey
      "rate-constant" = false ∧
    ArrheniusRate.mkDefault.setParameters
        ⟨UnitSystem.si, [("negative-A", AnyValue.bool true)]⟩ Units.one =
      .ok ⟨⟨⟨UnitSystem.si, [("negative-A", AnyValue.bool true)]⟩, Units.one,
        npos, none⟩, ⟨⟨.nan, .nan, .nan⟩, true⟩⟩ :=
  ⟨rfl, setParameters_missing_rate_constant ArrheniusRate.mkDefault
    ⟨UnitSystem.si, [("negative-A", AnyValue.bool true)]⟩ Units.one rfl⟩

/-- C7: `getParameters` into an empty node writes the `negative-A` key
exactly when the flag is set, and writes the `rate-constant` key exactly when
the Arrhenius coefficients are configured (non-NaN pre-exponential factor,
the state in which the Arrhenius node comes back non-empty). -/
theorem getParameters_keys (r : ArrheniusRate) (rate_units : Units) :
    (r.getParameters AnyMap.empty rate_units).hasKey "negative-A" =
      r.allow_negative_pre_exponential_factor ∧
    (r.getParameters AnyMap.empty rate_units).hasKey "rate-constant" =
      !r.m_A.isNaN := by
  cases hf : r.allow_negative_pre_exponential_factor <;>
  rcases hA : r.m_A with _ | q <;>
    simp [ArrheniusRate.getParameters, Arrhenius.writeParameters, hf, hA,
      Double.isNaN, AnyMap.hasKey, AnyMap.find?, AnyMap.set, AnyMap.empty,
      AnyMap.isEmpty, setPairs]

end Cantera
